import Mathlib

/-!
Verification development for the Alpha Deep Research Agent repository.

The repository ships the frontend WebSocket client (ResearchAgent.tsx,
here `src/unnamed/part_000`) and describes a backend (Job Gateway, Job
Queue, Research Worker, Progress Broadcaster) at its interface boundary.
The client is embedded below directly from the source; the backend
components, whose code is not in the repository snapshot, are modelled
from the specification text and marked as such.
-/

namespace Spec2Proof

/-! ## JavaScript-value helpers

The client stores entity ids as `number | null` and tests them with JS
truthiness, under which both `null`/`undefined` and `0` are falsy. We model
`number | null | undefined` ids as `Option Nat` and empty-or-missing strings
as `Option String`. -/

/-- JS truthiness of a `number | null | undefined` value: `null`, `undefined`
and `0` are falsy. -/
def optTruthy : Option Nat → Bool
  | none => false
  | some n => n != 0

/-- JS truthiness of a `string | undefined` value: `undefined` and the empty
string are falsy. -/
def optStrTruthy : Option String → Bool
  | none => false
  | some s => !s.isEmpty

/-- The JS expression `a || b` on `number | null | undefined` values. -/
def jsOr (a b : Option Nat) : Option Nat :=
  if optTruthy a then a else b

/-- The JS expression `s.includes(pat)`: substring containment, modelled as
infix containment of character lists. -/
def includesStr (s pat : String) : Bool :=
  decide (pat.toList <:+: s.toList)

/-! ## Client data model (from `part_000`, interfaces `Person`, `Company`,
`Progress`, `ContextSnippet`) -/

structure Person where
  id : Nat
  full_name : String
  email : String
  title : String
  company_id : Nat
  created_at : String
deriving DecidableEq, Repr

structure Company where
  id : Nat
  name : String
  domain : String
  campaign_id : Nat
  created_at : String
deriving DecidableEq, Repr

/-- A parsed WebSocket progress message. The `Progress` interface declares
`percent`, `msg`, `query?`, `found_fields?`, `research_mode?`; the `onmessage`
handler additionally reads `data.company_id`, so it is a field here. -/
structure ProgressEvent where
  percent : Int
  msg : String
  query : Option String := none
  found_fields : Option (List String) := none
  research_mode : Option String := none
  company_id : Option Nat := none
deriving DecidableEq, Repr

structure ContextSnippet where
  id : Nat
  entity_type : String
  entity_id : Nat
  snippet_type : String
  content : String
  payload : List (String × String)
  source_urls : List String
  created_at : String
deriving DecidableEq, Repr

/-- The React component state touched by the operations under verification. -/
structure ClientState where
  progress : Option ProgressEvent
  results : List ContextSnippet
  isLoading : Bool
  error : Option String
  logs : List String
  currentCompanyId : Option Nat
deriving DecidableEq, Repr

/-! ## addLog (from `part_000` lines 133-136) -/

/-- The JS expression `l.slice(-k)`: the last `k` elements (all of them when
the list is shorter). -/
def jsSliceLast (k : Nat) (l : List α) : List α :=
  l.drop (l.length - k)

/-- `addLog`: prefixes the message with a timestamp and appends it to the last
24 retained entries (`setLogs(prev => [...prev.slice(-24), entry])`). The
timestamp string is passed in, standing for `new Date().toLocaleTimeString()`. -/
def addLog (ts message : String) (logs : List String) : List String :=
  jsSliceLast 24 logs ++ ["[" ++ ts ++ "] " ++ message]

/-! ## fetchResults (from `part_000` lines 230-275) -/

/-- A settled HTTP response for `GET /snippets/ID`, with its parsed JSON body. -/
structure HttpResponse where
  status : Nat
  statusText : String
  body : List ContextSnippet
deriving DecidableEq, Repr

/-- `response.ok`: status in the range 200-299. -/
def respOk (r : HttpResponse) : Bool :=
  decide (200 ≤ r.status) && decide (r.status < 300)

/-- `fetchResults(companyId?)`. The network is a parameter `resp` mapping the
requested company id to the settled response. Mirrors the source: target id is
`companyId || currentCompanyId`; a falsy target logs and clears `results`; a
404 clears `results` without recording an error; another non-OK status throws
into the catch block, which records an error; an OK response stores the body
when non-empty and clears `results` when empty. -/
def fetchResults (ts : String) (companyId : Option Nat)
    (resp : Nat → HttpResponse) (s : ClientState) : ClientState :=
  match jsOr companyId s.currentCompanyId with
  | some (cid + 1) =>
    let s1 := { s with
      logs := addLog ts ("Fetching context snippets for company ID: " ++
        Nat.repr (cid + 1)) s.logs }
    let r := resp (cid + 1)
    if !respOk r then
      if r.status == 404 then
        { s1 with
          results := [],
          logs := addLog ts "Try running research first to generate data"
            (addLog ts ("No context snippets found for company " ++
              Nat.repr (cid + 1)) s1.logs) }
      else
        let errorMsg := "HTTP " ++ Nat.repr r.status ++ ": " ++ r.statusText
        { s1 with
          error := some ("Failed to load context snippets: " ++ errorMsg),
          logs := addLog ts ("Failed to load context snippets: " ++ errorMsg)
            s1.logs }
    else
      if r.body.length > 0 then
        { s1 with
          results := r.body,
          logs := addLog ts "loaded snippet statistics"
            (addLog ts ("Loaded " ++ Nat.repr r.body.length ++
              " context snippets") s1.logs) }
      else
        { s1 with
          results := [],
          logs := addLog ts "No context snippets found for this company"
            s1.logs }
  | _ =>
    { s with
      results := [],
      logs := addLog ts "No company ID specified to fetch results" s.logs }

/-! ## websocket.onmessage (from `part_000` lines 70-111) -/

/-- The outcome of one `onmessage` invocation: the updated component state and
the company id passed to `fetchResults`, when the handler invoked it
(`none` when no fetch was triggered). -/
structure HandleResult where
  state : ClientState
  fetchTarget : Option Nat
deriving DecidableEq, Repr

/-- The terminal-success test of the handler:
`data.percent >= 100 && data.msg.includes('completed')`. -/
def isTerminalSuccess (e : ProgressEvent) : Bool :=
  decide (100 ≤ e.percent) && includesStr e.msg "completed"

/-- The unconditional first half of the `onmessage` handler, run for every
message: stores the event as the displayed progress, adopts `data.company_id`
when `currentCompanyId` is unset, and writes the per-event log lines. -/
def onmessagePrefix (ts : String) (data : ProgressEvent) (s : ClientState) :
    ClientState :=
  let cur0 := s.currentCompanyId
  let s1 := { s with progress := some data }
  let s2 :=
    if optTruthy data.company_id && !optTruthy cur0 then
      { s1 with
        currentCompanyId := data.company_id,
        logs := addLog ts ("Company ID set to: " ++
          Nat.repr (data.company_id.getD 0)) s1.logs }
    else s1
  let s3 := { s2 with
    logs := addLog ts (data.msg ++ " (" ++ Int.repr data.percent ++
      "% complete)") s2.logs }
  let s4 :=
    if optStrTruthy data.query then
      { s3 with
        logs := addLog ts ("Query: \x22" ++ (data.query.getD "") ++ "\x22")
          s3.logs }
    else s3
  match data.found_fields with
  | some fs =>
    if fs.length > 0 then
      { s4 with
        logs := addLog ts ("Fields completed: " ++
          String.intercalate ", " fs) s4.logs }
    else s4
  | none => s4

/-- The `websocket.onmessage` handler on an already-parsed message `data`.
`ts` stands for the wall-clock timestamp used by `addLog`. The body of the
2-second `setTimeout` is included (it always runs); per JS closure semantics
it reads the `currentCompanyId` captured at handler creation (`cur0`), not the
value stored earlier in the same invocation. -/
def onmessage (ts : String) (data : ProgressEvent) (s : ClientState) :
    HandleResult :=
  let cur0 := s.currentCompanyId
  let s5 := onmessagePrefix ts data s
  if isTerminalSuccess data then
    let s6 := { s5 with
      logs := addLog ts "Research completed - fetching results..." s5.logs }
    let targetCompanyId := jsOr cur0 data.company_id
    if optTruthy targetCompanyId then
      ⟨{ s6 with
          logs := addLog ts ("Fetching results for company ID: " ++
            Nat.repr (targetCompanyId.getD 0)) s6.logs,
          progress := none,
          isLoading := false },
        targetCompanyId⟩
    else
      ⟨{ s6 with
          logs := addLog ts "No company ID available to fetch results" s6.logs,
          progress := none,
          isLoading := false },
        none⟩
  else
    ⟨s5, none⟩

/-! ## runResearch (from `part_000` lines 277-323), synchronous prefix and
submit-response handling -/

/-- The synchronous prefix of `runResearch(personId, personName)` up to the
`fetch` call: sets loading, clears error and results, shows the initial
progress card, and stores the selected person's company id
(`setCurrentCompanyId(companyId || null)`). -/
def runResearchStart (ts : String) (people : List Person)
    (companies : List Company) (personId : Nat) (personName : String)
    (s : ClientState) : ClientState :=
  let person := people.find? (fun p => p.id == personId)
  let companyId := person.map (·.company_id)
  let company := companies.find? (fun c => some c.id == companyId)
  { s with
    isLoading := true,
    error := none,
    results := [],
    progress := some
      { percent := 0, msg := "Initializing research agent...",
        research_mode := some "REAL_SEARCH" },
    currentCompanyId := jsOr companyId none,
    logs :=
      addLog ts "Mode: Real web search analysis"
        (addLog ts ("Target company: " ++
            ((company.map (·.name)).getD "Unknown") ++ " (ID: " ++
            Nat.repr (companyId.getD 0) ++ ")")
          (addLog ts ("Starting research for " ++ personName) s.logs)) }

/-- The parsed body of a successful `POST /enrich/ID` response. -/
structure EnrichJobResponse where
  job_id : String
  company_id : Option Nat := none
  estimated_duration : Option String := none
deriving DecidableEq, Repr

/-- The submit-response handling of `runResearch`: on an OK response, a truthy
`job.company_id` overwrites `currentCompanyId`; three log lines follow. -/
def runResearchOk (ts : String) (job : EnrichJobResponse) (s : ClientState) :
    ClientState :=
  let s1 :=
    if optTruthy job.company_id then
      { s with
        currentCompanyId := job.company_id,
        logs := addLog ts ("Research will save to company ID: " ++
          Nat.repr (job.company_id.getD 0)) s.logs }
    else s
  { s1 with
    logs :=
      addLog ts "Watch for real-time progress updates below..."
        (addLog ts ("Estimated duration: " ++
            (job.estimated_duration.getD "5-10 minutes"))
          (addLog ts ("Research job " ++ job.job_id ++ " queued successfully")
            s1.logs)) }

/-! ## Backend model

The backend (Job Gateway, Job Queue, Research Worker, Progress Broadcaster)
is not in the repository snapshot; the definitions below are modelled from the
specification's component contracts. -/

/-- Modelled from the spec: `Snippet` data model — written by the Research
Worker exactly once per successful job, keyed by entity id. -/
structure Snippet where
  id : Nat
  entity_type : String
  entity_id : Nat
  snippet_type : String
  content : String
  payload : List (String × String)
  source_urls : List String
deriving DecidableEq, Repr

/-- Modelled from the spec: job status enum `Queued, Running, Completed,
Failed`; `Completed` and `Failed` are terminal. -/
inductive JobStatus
  | queued
  | running
  | completed
  | failed
deriving DecidableEq, Repr

/-- Whether a (possibly missing) job record is already terminal. -/
def statusTerminal : Option JobStatus → Bool
  | some .completed => true
  | some .failed => true
  | _ => false

/-- Modelled from the spec: a ProgressEvent on the broadcast path —
`job_id, percent, message` plus the entity id the worker resolved
(`company_id` on the wire). -/
structure BEvent where
  jobId : Nat
  companyId : Option Nat
  percent : Nat
  msg : String
deriving DecidableEq, Repr

/-- Modelled from the spec: the ordered pipeline stages of the Research
Worker ("initialize", "derive queries", "search per query", "synthesize
fields", "persist"); the stage count is known and fixed. -/
def pipelineStages : List String :=
  ["Initializing...", "Deriving search queries", "Searching per query",
   "Synthesizing fields", "Persisting results"]

/-- The known stage count of the pipeline. -/
def nStages : Nat := pipelineStages.length

/-- Modelled from the spec: percent assignment policy — evenly partition
[0,100) across the known stage count; 100 is reserved for the terminal
success event. -/
def stagePercent (i : Nat) : Nat := i * 100 / nStages

/-- Modelled from the spec: the terminal success message; its text contains
the substring `completed` that the client's terminal-success test looks for. -/
def successMsg : String := "Research completed"

/-- Modelled from the spec: the terminal failure message, distinct from the
success message so observers can disambiguate. -/
def failureMsg : String := "Research failed"

/-- The outcome of one pipeline execution: `none` means every stage
succeeded; `some f` (with `f < nStages`) means stage `f` failed. -/
abbrev Outcome := Option Nat

/-- Modelled from the spec: the full sequence of ProgressEvents one pipeline
execution broadcasts for job `j` on entity `cid`. One event per stage
transition at that stage's percent; then, on success, the terminal success
event at percent 100, or, on failure at stage `f`, the terminal failure event
at stage `f`'s percent (the final percent of a failed job is not 100). -/
def emittedEvents (j : Nat) (cid : Option Nat) : Outcome → List BEvent
  | none =>
    (List.range nStages).map
      (fun i => ⟨j, cid, stagePercent i, pipelineStages.getD i ""⟩) ++
    [⟨j, cid, 100, successMsg⟩]
  | some f =>
    (List.range (f + 1)).map
      (fun i => ⟨j, cid, stagePercent i, pipelineStages.getD i ""⟩) ++
    [⟨j, cid, stagePercent f, failureMsg⟩]

/-- An event is terminal when it carries percent 100 or the explicit failure
marker. -/
def isTerminalEvent (e : BEvent) : Bool :=
  e.percent == 100 || e.msg == failureMsg

/-- Modelled from the spec: the shared backend state — the CRUD people table
(person id paired with the associated entity id), the Job Queue, the job
table, the job-id allocator, the history of broadcast ProgressEvents, the
Snippet Store, and the worker's local log lines (log-only output is not
broadcast). -/
structure BackendState where
  people : List (Nat × Nat)
  queue : List (Nat × Nat)
  jobs : List (Nat × JobStatus)
  nextJobId : Nat
  events : List BEvent
  snippets : List Snippet
  logLines : List String
deriving DecidableEq, Repr

/-- Looks a person id up in the CRUD table, yielding the associated entity
(company) id. -/
def lookupPerson (people : List (Nat × Nat)) (pid : Nat) : Option Nat :=
  (people.find? (fun p => p.1 == pid)).map (·.2)

/-- The status recorded for a job id, when the job exists. -/
def jobStatus (jobs : List (Nat × JobStatus)) (j : Nat) : Option JobStatus :=
  (jobs.find? (fun p => p.1 == j)).map (·.2)

/-- Overwrites the status of job `j` in the job table. -/
def setStatus (jobs : List (Nat × JobStatus)) (j : Nat) (st : JobStatus) :
    List (Nat × JobStatus) :=
  jobs.map (fun p => if p.1 == j then (p.1, st) else p)

/-- Modelled from the spec: submission errors — `NotFound` (404-class) when
the person id does not exist. -/
inductive SubmitError
  | notFound
deriving DecidableEq, Repr

/-- Modelled from the spec: `Submit(target_person_id)` on the Job Gateway.
Validates the person id against the CRUD table and fails with `NotFound` if
absent, touching nothing; otherwise allocates a fresh `job_id`, enqueues
exactly one work item, records the job as `Queued`, and returns at once —
no pipeline stage runs and no event is broadcast on this path. -/
def submit (s : BackendState) (pid : Nat) :
    Except SubmitError Nat × BackendState :=
  match lookupPerson s.people pid with
  | none => (.error .notFound, s)
  | some _ =>
    let j := s.nextJobId
    (.ok j,
      { s with
        nextJobId := j + 1,
        queue := s.queue ++ [(j, pid)],
        jobs := s.jobs ++ [(j, .queued)] })

/-- Modelled from the spec: the Snippet written on success for entity `cid`:
exactly one new row per successful job, with a non-empty payload. -/
def mkSnippet (cid : Nat) : Snippet :=
  { id := 0, entity_type := "company", entity_id := cid,
    snippet_type := "real_ai_research", content := "research findings",
    payload := [("snippet", "research findings")],
    source_urls := ["https://example.com"] }

/-- Modelled from the spec: one delivery of work item `(j, pid)` to the
Research Worker, with pipeline outcome `o`. The worker first checks the job
status and no-ops with a log-only line if already terminal (idempotence under
at-least-once delivery). Otherwise it resolves the person's entity id (a
resolution failure is the first possible Failed terminal state), runs the
stages, broadcasts the emitted events, and on success atomically persists
exactly one Snippet; on any failure nothing is persisted. -/
def processJob (s : BackendState) (j pid : Nat) (o : Outcome) : BackendState :=
  if statusTerminal (jobStatus s.jobs j) then
    { s with logLines := s.logLines ++ ["job already terminal - skipping"] }
  else
    match lookupPerson s.people pid with
    | none =>
      { s with
        jobs := setStatus s.jobs j .failed,
        events := s.events ++ [⟨j, none, 0, failureMsg⟩] }
    | some cid =>
      match o with
      | none =>
        { s with
          jobs := setStatus s.jobs j .completed,
          events := s.events ++ emittedEvents j (some cid) none,
          snippets := s.snippets ++ [mkSnippet cid] }
      | some f =>
        { s with
          jobs := setStatus s.jobs j .failed,
          events := s.events ++ emittedEvents j (some cid) (some f) }

/-- Modelled from the spec: `FetchSnippets(entity_id)` on the Job Gateway —
a pure read-through returning the stored snippets for the entity, the empty
sequence (not an error) when none exist. -/
def fetchSnippets (snips : List Snippet) (eid : Nat) : List Snippet :=
  snips.filter (fun sn => sn.entity_id == eid)

/-! ## Helper lemmas -/

lemma onmessagePrefix_progress (ts : String) (e : ProgressEvent)
    (s : ClientState) : (onmessagePrefix ts e s).progress = some e := by
  rcases hff : e.found_fields with _ | fs <;>
    simp only [onmessagePrefix, hff] <;> split_ifs <;> rfl

lemma onmessagePrefix_isLoading (ts : String) (e : ProgressEvent)
    (s : ClientState) : (onmessagePrefix ts e s).isLoading = s.isLoading := by
  rcases hff : e.found_fields with _ | fs <;>
    simp only [onmessagePrefix, hff] <;> split_ifs <;> rfl

lemma onmessagePrefix_results (ts : String) (e : ProgressEvent)
    (s : ClientState) : (onmessagePrefix ts e s).results = s.results := by
  rcases hff : e.found_fields with _ | fs <;>
    simp only [onmessagePrefix, hff] <;> split_ifs <;> rfl

lemma onmessagePrefix_currentCompanyId (ts : String) (e : ProgressEvent)
    (s : ClientState) :
    (onmessagePrefix ts e s).currentCompanyId =
      if optTruthy e.company_id && !optTruthy s.currentCompanyId then
        e.company_id
      else s.currentCompanyId := by
  rcases hff : e.found_fields with _ | fs <;>
    simp only [onmessagePrefix, hff] <;> split_ifs <;> simp_all

lemma onmessage_currentCompanyId_eq (ts : String) (e : ProgressEvent)
    (s : ClientState) :
    (onmessage ts e s).state.currentCompanyId =
      (onmessagePrefix ts e s).currentCompanyId := by
  simp only [onmessage]
  split_ifs <;> rfl

lemma onmessage_results_eq (ts : String) (e : ProgressEvent)
    (s : ClientState) :
    (onmessage ts e s).state.results = (onmessagePrefix ts e s).results := by
  simp only [onmessage]
  split_ifs <;> rfl

lemma onmessage_fetchTarget_eq (ts : String) (e : ProgressEvent)
    (s : ClientState) :
    (onmessage ts e s).fetchTarget =
      if isTerminalSuccess e then
        if optTruthy (jsOr s.currentCompanyId e.company_id) then
          jsOr s.currentCompanyId e.company_id
        else none
      else none := by
  simp only [onmessage]
  split_ifs <;> rfl

/-! ## C9 — addLog keeps at most 25 entries -/

/-- C9: after every call to `addLog` the logs list has `min prev 24 + 1 ≤ 25`
entries; the new timestamped message is the last entry; the retained previous
entries form a suffix of the previous list (its most recent entries, in their
original order). -/
theorem addLog_bounded (ts m : String) (logs : List String) :
    (addLog ts m logs).length = min logs.length 24 + 1 ∧
    (addLog ts m logs).length ≤ 25 ∧
    (addLog ts m logs).getLast? = some ("[" ++ ts ++ "] " ++ m) ∧
    (addLog ts m logs).dropLast <:+ logs ∧
    (addLog ts m logs).dropLast.length = min logs.length 24 := by
  refine ⟨?_, ?_, ?_, ?_, ?_⟩
  · simp [addLog, jsSliceLast]
    omega
  · simp [addLog, jsSliceLast]
    omega
  · simp [addLog]
  · rw [addLog, List.dropLast_concat]
    exact List.drop_suffix _ _
  · rw [addLog, List.dropLast_concat]
    simp [jsSliceLast]
    omega

/-! ## C1 — terminal-success recognition gates fetch, progress-clear and
loading-end -/

/-- C1: the handler treats an event as terminal success exactly when
`percent >= 100` and the message contains `completed`. Such events clear the
displayed progress and end the loading state; any other event triggers no
result fetch, leaves the event displayed as progress, and leaves the loading
state as it was (in particular still set); and a fetch is only ever triggered
by a terminal-success event. -/
theorem onmessage_terminal_gate (ts : String) (e : ProgressEvent)
    (s : ClientState) :
    ((100 ≤ e.percent ∧ includesStr e.msg "completed" = true) →
      (onmessage ts e s).state.progress = none ∧
      (onmessage ts e s).state.isLoading = false) ∧
    (¬(100 ≤ e.percent ∧ includesStr e.msg "completed" = true) →
      (onmessage ts e s).fetchTarget = none ∧
      (onmessage ts e s).state.progress = some e ∧
      (onmessage ts e s).state.isLoading = s.isLoading) ∧
    ((onmessage ts e s).fetchTarget ≠ none →
      100 ≤ e.percent ∧ includesStr e.msg "completed" = true) := by
  by_cases hterm : isTerminalSuccess e = true
  · have hc : 100 ≤ e.percent ∧ includesStr e.msg "completed" = true := by
      simpa [isTerminalSuccess, decide_eq_true_iff] using hterm
    refine ⟨fun _ => ?_, fun hn => absurd hc hn, fun _ => hc⟩
    simp only [onmessage, hterm, if_true]
    split_ifs <;> exact ⟨rfl, rfl⟩
  · have hc : ¬(100 ≤ e.percent ∧ includesStr e.msg "completed" = true) := by
      intro h
      exact hterm (by simp [isTerminalSuccess, h.1, h.2])
    refine ⟨fun h => absurd h hc, fun _ => ?_, fun hf => ?_⟩
    · have hterm' : isTerminalSuccess e = false := by
        simpa using hterm
      simp only [onmessage, hterm', if_false]
      exact ⟨rfl, onmessagePrefix_progress ts e s,
        onmessagePrefix_isLoading ts e s⟩
    · exfalso
      apply hf
      rw [onmessage_fetchTarget_eq]
      simp [hterm]

/-- Witness for C1: a terminal failure event (percent 100, message without
`completed`) triggers no fetch and leaves the loading state set. -/
theorem onmessage_terminal_gate_witness :
    (onmessage "10:00:00"
      { percent := 100, msg := "Research failed", company_id := some 7 }
      { progress := none, results := [], isLoading := true, error := none,
        logs := [], currentCompanyId := none }).fetchTarget = none ∧
    (onmessage "10:00:00"
      { percent := 100, msg := "Research failed", company_id := some 7 }
      { progress := none, results := [], isLoading := true, error := none,
        logs := [], currentCompanyId := none }).state.isLoading = true := by
  have h := (onmessage_terminal_gate "10:00:00"
    { percent := 100, msg := "Research failed", company_id := some 7 }
    { progress := none, results := [], isLoading := true, error := none,
      logs := [], currentCompanyId := none }).2.1 (by decide)
  exact ⟨h.1, h.2.2⟩

/-! ## C3 — terminal-event fetch targets currentCompanyId, falling back to
the event's company id -/

/-- C3: on a terminal-success event the handler fetches for
`currentCompanyId` when that is set (a non-null, hence nonzero, id);
otherwise for the event's embedded `company_id` when that is set; and when
neither is set it performs no fetch and the results list — emptied at
submission time — stays as it was, in particular empty. -/
theorem onmessage_fetch_id (ts : String) (e : ProgressEvent) (s : ClientState)
    (hterm : 100 ≤ e.percent ∧ includesStr e.msg "completed" = true) :
    (∀ c : Nat, s.currentCompanyId = some (c + 1) →
      (onmessage ts e s).fetchTarget = some (c + 1)) ∧
    (optTruthy s.currentCompanyId = false →
      ∀ d : Nat, e.company_id = some (d + 1) →
        (onmessage ts e s).fetchTarget = some (d + 1)) ∧
    (optTruthy s.currentCompanyId = false → optTruthy e.company_id = false →
      (onmessage ts e s).fetchTarget = none ∧
      (onmessage ts e s).state.results = s.results ∧
      (s.results = [] → (onmessage ts e s).state.results = [])) := by
  have hts : isTerminalSuccess e = true := by
    simp [isTerminalSuccess, hterm.1, hterm.2]
  have htr : ∀ n : Nat, optTruthy (some (n + 1)) = true := by
    intro n
    simp [optTruthy]
  refine ⟨fun c hc => ?_, fun hcur d hd => ?_, fun hcur hev => ?_⟩
  · rw [onmessage_fetchTarget_eq]
    simp [hts, jsOr, hc, htr]
  · rw [onmessage_fetchTarget_eq]
    simp [hts, jsOr, hcur, hd, htr]
  · refine ⟨?_, ?_, fun hr => ?_⟩
    · rw [onmessage_fetchTarget_eq]
      simp [hts, jsOr, hcur, hev]
    · rw [onmessage_results_eq, onmessagePrefix_results]
    · rw [onmessage_results_eq, onmessagePrefix_results, hr]

/-- Witness for C3: with `currentCompanyId = 3` set, a terminal event carrying
`company_id = 7` still fetches for company 3. -/
theorem onmessage_fetch_id_witness :
    (onmessage "10:00:00"
      { percent := 100, msg := "Research completed", company_id := some 7 }
      { progress := none, results := [], isLoading := true, error := none,
        logs := [], currentCompanyId := some 3 }).fetchTarget = some 3 := by
  exact (onmessage_fetch_id "10:00:00"
    { percent := 100, msg := "Research completed", company_id := some 7 }
    { progress := none, results := [], isLoading := true, error := none,
      logs := [], currentCompanyId := some 3 }
    ⟨by decide, by decide⟩).1 2 rfl

/-! ## C10 — the handler never overwrites a set currentCompanyId -/

/-- C10: the `onmessage` handler adopts an event's `company_id` only when
`currentCompanyId` is unset; once set (non-null, hence nonzero), every later
event — whatever `company_id` it carries — leaves it unchanged. `runResearch`
by contrast can overwrite it, shown at a concrete input. -/
theorem onmessage_companyId_frame (ts : String) (e : ProgressEvent)
    (s : ClientState) :
    (∀ c : Nat, s.currentCompanyId = some (c + 1) →
      (onmessage ts e s).state.currentCompanyId = some (c + 1)) ∧
    (optTruthy s.currentCompanyId = false → optTruthy e.company_id = true →
      (onmessage ts e s).state.currentCompanyId = e.company_id) ∧
    (runResearchStart "t"
      [{ id := 1, full_name := "n", email := "e", title := "t",
         company_id := 7, created_at := "d" }] [] 1 "n"
      { progress := none, results := [], isLoading := false, error := none,
        logs := [], currentCompanyId := some 3 }).currentCompanyId =
      some 7 := by
  refine ⟨fun c hc => ?_, fun hcur hev => ?_, by decide⟩
  · rw [onmessage_currentCompanyId_eq, onmessagePrefix_currentCompanyId]
    simp [hc, optTruthy]
  · rw [onmessage_currentCompanyId_eq, onmessagePrefix_currentCompanyId]
    simp [hcur, hev]

/-- Witness for C10: with `currentCompanyId = 3` set, an event carrying
`company_id = 7` leaves it at 3. -/
theorem onmessage_companyId_frame_witness :
    (onmessage "10:00:00"
      { percent := 40, msg := "searching", company_id := some 7 }
      { progress := none, results := [], isLoading := true, error := none,
        logs := [], currentCompanyId := some 3 }).state.currentCompanyId =
      some 3 := by
  exact (onmessage_companyId_frame "10:00:00"
    { percent := 40, msg := "searching", company_id := some 7 }
    { progress := none, results := [], isLoading := true, error := none,
      logs := [], currentCompanyId := some 3 }).1 2 rfl

/-! ## C8 — absent snippets are an empty list, not an error -/

/-- C8: the gateway read (modelled from the spec) returns the empty sequence,
not an error, for an entity with no stored snippets; in the client, a 404
response and an OK response with an empty body both set `results` to the empty
list without recording an error, while any other non-OK status records an
error. -/
theorem fetch_empty_not_error (ts : String) (s : ClientState) (c : Nat)
    (resp : Nat → HttpResponse) :
    (∀ (snips : List Snippet) (eid : Nat),
      (∀ sn ∈ snips, sn.entity_id ≠ eid) → fetchSnippets snips eid = []) ∧
    ((resp (c + 1)).status = 404 →
      (fetchResults ts (some (c + 1)) resp s).results = [] ∧
      (fetchResults ts (some (c + 1)) resp s).error = s.error) ∧
    (respOk (resp (c + 1)) = true → (resp (c + 1)).body = [] →
      (fetchResults ts (some (c + 1)) resp s).results = [] ∧
      (fetchResults ts (some (c + 1)) resp s).error = s.error) ∧
    (respOk (resp (c + 1)) = false → (resp (c + 1)).status ≠ 404 →
      (fetchResults ts (some (c + 1)) resp s).error =
        some ("Failed to load context snippets: " ++
          ("HTTP " ++ Nat.repr (resp (c + 1)).status ++ ": " ++
            (resp (c + 1)).statusText))) := by
  have htgt : jsOr (some (c + 1)) s.currentCompanyId = some (c + 1) := by
    simp [jsOr, optTruthy]
  refine ⟨fun snips eid h => ?_, fun h404 => ?_, fun hok hbody => ?_,
    fun hok h404 => ?_⟩
  · rw [fetchSnippets, List.filter_eq_nil_iff]
    intro sn hsn
    simpa using h sn hsn
  · have hnok : respOk (resp (c + 1)) = false := by
      simp [respOk, h404]
    simp only [fetchResults, htgt]
    simp [hnok, h404]
  · simp only [fetchResults, htgt]
    simp [hok, hbody]
  · simp only [fetchResults, htgt]
    simp [hok, h404]

/-- Witness for C8: a concrete 404 response leaves an empty result list and no
error; a concrete 500 response records an error. -/
theorem fetch_empty_not_error_witness :
    (fetchResults "t" (some 5) (fun _ => ⟨404, "Not Found", []⟩)
      { progress := none, results := [], isLoading := true, error := none,
        logs := [], currentCompanyId := none }).results = [] ∧
    (fetchResults "t" (some 5) (fun _ => ⟨404, "Not Found", []⟩)
      { progress := none, results := [], isLoading := true, error := none,
        logs := [], currentCompanyId := none }).error = none ∧
    (fetchResults "t" (some 5) (fun _ => ⟨500, "ISE", []⟩)
      { progress := none, results := [], isLoading := true, error := none,
        logs := [], currentCompanyId := none }).error =
      some "Failed to load context snippets: HTTP 500: ISE" := by
  have h1 := (fetch_empty_not_error "t"
    { progress := none, results := [], isLoading := true, error := none,
      logs := [], currentCompanyId := none } 4
    (fun _ => ⟨404, "Not Found", []⟩)).2.1 (by decide)
  have h2 := (fetch_empty_not_error "t"
    { progress := none, results := [], isLoading := true, error := none,
      logs := [], currentCompanyId := none } 4
    (fun _ => ⟨500, "ISE", []⟩)).2.2.2 (by decide) (by decide)
  refine ⟨h1.1, h1.2, ?_⟩
  rw [h2]
  decide

/-! ## C5 — submitting for an unknown person fails with NotFound and enqueues
nothing -/

/-- C5: when the person id is absent from the CRUD table, `Submit` fails
synchronously with the NotFound (404-class) error, the Job Queue receives no
enqueue, no job record is created, and the state is untouched. -/
theorem submit_unknown_notFound (s : BackendState) (pid : Nat)
    (h : lookupPerson s.people pid = none) :
    (submit s pid).1 = Except.error SubmitError.notFound ∧
    (submit s pid).2.queue = s.queue ∧
    (submit s pid).2.jobs = s.jobs ∧
    (submit s pid).2 = s := by
  simp [submit, h]

/-- Witness for C5: submitting for person 99 against a table holding only
person 1 fails with NotFound and leaves the queue empty. -/
theorem submit_unknown_notFound_witness :
    lookupPerson ([(1, 7)] : List (Nat × Nat)) 99 = none ∧
    (submit ⟨[(1, 7)], [], [], 0, [], [], []⟩ 99).1 =
      Except.error SubmitError.notFound ∧
    (submit ⟨[(1, 7)], [], [], 0, [], [], []⟩ 99).2.queue = [] := by
  have h := submit_unknown_notFound ⟨[(1, 7)], [], [], 0, [], [], []⟩ 99
    (by decide)
  exact ⟨by decide, h.1, h.2.1⟩

/-! ## C4 — Submit returns before any progress event for the job is
observable -/

/-- C4: `Submit` is a pure gateway step that broadcasts nothing: when it
returns job id `j`, the observable event history is exactly what it was
before the call, and — since `j` is freshly allocated — no event for `j`
appears in it. So every progress event for `j` becomes observable only after
`Submit` has returned, and the submit path never runs (or waits on) the
worker pipeline. -/
theorem submit_returns_before_events (s : BackendState) (pid : Nat) (j : Nat)
    (hfresh : ∀ e ∈ s.events, e.jobId < s.nextJobId)
    (hok : (submit s pid).1 = Except.ok j) :
    (submit s pid).2.events = s.events ∧
    ∀ e ∈ (submit s pid).2.events, e.jobId ≠ j := by
  match hp : lookupPerson s.people pid with
  | none =>
    rw [submit] at hok
    simp [hp] at hok
  | some cid =>
    have hj : j = s.nextJobId := by
      rw [submit] at hok
      simp [hp] at hok
      omega
    have hev : (submit s pid).2.events = s.events := by
      simp [submit, hp]
    refine ⟨hev, ?_⟩
    rw [hev]
    intro e he
    have := hfresh e he
    omega

/-- Witness for C4: in a state that already holds an event for job 0, a fresh
submission gets job id 1 and its event history still shows nothing for
job 1. -/
theorem submit_returns_before_events_witness :
    (submit ⟨[(1, 7)], [], [], 1, [⟨0, some 7, 100, "Research completed"⟩],
        [], []⟩ 1).2.events = [⟨0, some 7, 100, "Research completed"⟩] ∧
    ∀ e ∈ (submit ⟨[(1, 7)], [], [], 1,
        [⟨0, some 7, 100, "Research completed"⟩], [], []⟩ 1).2.events,
      e.jobId ≠ 1 := by
  exact submit_returns_before_events
    ⟨[(1, 7)], [], [], 1, [⟨0, some 7, 100, "Research completed"⟩], [], []⟩
    1 1 (by decide) rfl

/-! ## Worker-pipeline lemmas -/

lemma stagePercent_lt_100 (i : Nat) (h : i < nStages) : stagePercent i < 100 := by
  have h5 : i < 5 := h
  have hn : nStages = 5 := rfl
  rw [stagePercent, hn]
  omega

lemma stagePercent_mono (a b : Nat) (hab : a ≤ b) :
    stagePercent a ≤ stagePercent b :=
  Nat.div_le_div_right (Nat.mul_le_mul_right _ hab)

lemma stage_event_not_terminal (j : Nat) (cid : Option Nat) (i : Nat)
    (h : i < nStages) :
    isTerminalEvent ⟨j, cid, stagePercent i, pipelineStages.getD i ""⟩ =
      false := by
  have hr : isTerminalEvent ⟨j, cid, stagePercent i, pipelineStages.getD i ""⟩ =
      ((stagePercent i == 100) || (pipelineStages.getD i "" == failureMsg)) :=
    rfl
  rw [hr]
  have h5 : i < 5 := h
  interval_cases i <;> decide

lemma emittedEvents_percents_none (j : Nat) (cid : Option Nat) :
    (emittedEvents j cid none).map (·.percent) =
      (List.range 5 ++ [5]).map stagePercent := rfl

lemma emittedEvents_percents_some (j : Nat) (cid : Option Nat) (f : Nat) :
    (emittedEvents j cid (some f)).map (·.percent) =
      (List.range (f + 1) ++ [f]).map stagePercent := by
  simp [emittedEvents, List.map_append, List.map_map, Function.comp_def,
    stagePercent]

lemma chain_stagePercent (n m : Nat) (hnm : n ≤ m) :
    List.Chain' (· ≤ ·) ((List.range (n + 1) ++ [m]).map stagePercent) := by
  apply List.chain'_map_of_chain' stagePercent
    (fun a b hab => stagePercent_mono a b hab)
  rw [List.chain'_append]
  refine ⟨?_, List.chain'_singleton _, ?_⟩
  · rw [List.chain'_range_succ]
    omega
  · intro x hx y hy
    rw [List.range_succ, List.getLast?_concat] at hx
    simp at hx hy
    omega

lemma countP_stage_events (j : Nat) (cid : Option Nat) (n : Nat)
    (hn : n ≤ nStages) :
    ((List.range n).map
      (fun i =>
        (⟨j, cid, stagePercent i, pipelineStages.getD i ""⟩ : BEvent))).countP
        isTerminalEvent = 0 := by
  rw [List.countP_eq_zero]
  intro e he
  obtain ⟨i, hi, rfl⟩ := List.mem_map.1 he
  rw [List.mem_range] at hi
  intro hcontra
  rw [stage_event_not_terminal j cid i (by omega)] at hcontra
  cases hcontra

/-! ## C2 — progress events are monotone with exactly one terminal event,
100 only on terminal success -/

/-- C2: for any job and any valid pipeline outcome, the sequence of
ProgressEvents broadcast for that job has non-decreasing percents; it
contains exactly one terminal event (percent 100 or explicit failure
marker), which is its last element; and percent 100 occurs only on the
terminal success event (so a failed run never reaches 100). Re-delivery adds
no further events for the job (see the worker idempotence theorem), so this
is the job's entire event sequence. -/
theorem emittedEvents_monotone_one_terminal (j : Nat) (cid : Option Nat)
    (o : Outcome) (ho : o = none ∨ ∃ f, o = some f ∧ f < nStages) :
    List.Chain' (· ≤ ·) ((emittedEvents j cid o).map (·.percent)) ∧
    (emittedEvents j cid o).countP isTerminalEvent = 1 ∧
    (emittedEvents j cid o).getLast?.map isTerminalEvent = some true ∧
    (∀ e ∈ emittedEvents j cid o, e.percent = 100 →
      e.msg = successMsg ∧ o = none) := by
  refine ⟨?_, ?_, ?_, ?_⟩
  · rcases ho with rfl | ⟨f, rfl, hf⟩
    · rw [emittedEvents_percents_none]
      exact chain_stagePercent 4 5 (by omega)
    · rw [emittedEvents_percents_some]
      exact chain_stagePercent f f le_rfl
  · rcases ho with rfl | ⟨f, rfl, hf⟩
    · rw [emittedEvents, List.countP_append,
        countP_stage_events j cid nStages le_rfl]
      rfl
    · rw [emittedEvents, List.countP_append,
        countP_stage_events j cid (f + 1) (by omega)]
      simp [List.countP_cons, isTerminalEvent]
  · rcases ho with rfl | ⟨f, rfl, hf⟩ <;>
      rw [emittedEvents, List.getLast?_concat] <;> simp [isTerminalEvent]
  · rcases ho with rfl | ⟨f, rfl, hf⟩ <;> intro e he h100
    · rw [emittedEvents] at he
      rcases List.mem_append.1 he with h | h
      · obtain ⟨i, hi, rfl⟩ := List.mem_map.1 h
        rw [List.mem_range] at hi
        exact absurd h100
          (by have := stagePercent_lt_100 i hi; simp; omega)
      · simp at h
        subst h
        exact ⟨rfl, rfl⟩
    · rw [emittedEvents] at he
      rcases List.mem_append.1 he with h | h
      · obtain ⟨i, hi, rfl⟩ := List.mem_map.1 h
        rw [List.mem_range] at hi
        exact absurd h100
          (by have := stagePercent_lt_100 i (by omega); simp; omega)
      · simp at h
        subst h
        exact absurd h100
          (by have := stagePercent_lt_100 f hf; simp; omega)

/-- Witness for C2: the event sequence of a job failing at stage 2 is
monotone, has exactly one terminal event, and never shows percent 100. -/
theorem emittedEvents_monotone_one_terminal_witness :
    List.Chain' (· ≤ ·)
      ((emittedEvents 1 (some 7) (some 2)).map (·.percent)) ∧
    (emittedEvents 1 (some 7) (some 2)).countP isTerminalEvent = 1 ∧
    (emittedEvents 1 (some 7) (some 2)).getLast?.map isTerminalEvent =
      some true ∧
    (∀ e ∈ emittedEvents 1 (some 7) (some 2), e.percent = 100 →
      e.msg = successMsg ∧ (some 2 : Outcome) = none) :=
  emittedEvents_monotone_one_terminal 1 (some 7) (some 2)
    (Or.inr ⟨2, rfl, by decide⟩)

/-! ## Worker-state lemmas -/

lemma jobStatus_setStatus (jobs : List (Nat × JobStatus)) (j : Nat)
    (st : JobStatus) (h : (jobStatus jobs j).isSome) :
    jobStatus (setStatus jobs j st) j = some st := by
  induction jobs with
  | nil => simp [jobStatus] at h
  | cons p tl ih =>
    cases hp : (p.1 == j)
    · have h' : (jobStatus tl j).isSome := by
        simpa [jobStatus, List.find?, hp] using h
      simpa [jobStatus, setStatus, List.find?, hp] using ih h'
    · simp [jobStatus, setStatus, List.find?, hp]

lemma processJob_status_terminal (s : BackendState) (j pid : Nat) (o : Outcome)
    (h : jobStatus s.jobs j = some JobStatus.queued) :
    statusTerminal (jobStatus (processJob s j pid o).jobs j) = true := by
  have hns : statusTerminal (jobStatus s.jobs j) = false := by rw [h]; rfl
  have hsome : (jobStatus s.jobs j).isSome := by rw [h]; rfl
  rw [processJob, hns]
  simp only [Bool.false_eq_true, if_false]
  cases hl : lookupPerson s.people pid <;> cases o <;>
    simp [jobStatus_setStatus s.jobs j _ hsome, statusTerminal]

/-! ## C6 — re-delivery of a terminal job is a no-op -/

/-- C6: once a delivery has driven a queued job to its terminal status, a
second delivery of the same job id leaves the Snippet Store and the broadcast
event history exactly as the first delivery left them — no second Snippet
write and no second terminal event — and only appends the log-only skip
line; so processing a completed job twice equals processing it once. -/
theorem processJob_idempotent (s : BackendState) (j pid : Nat) (o o2 : Outcome)
    (h : jobStatus s.jobs j = some JobStatus.queued) :
    (processJob (processJob s j pid o) j pid o2).snippets =
      (processJob s j pid o).snippets ∧
    (processJob (processJob s j pid o) j pid o2).events =
      (processJob s j pid o).events ∧
    (processJob (processJob s j pid o) j pid o2).logLines =
      (processJob s j pid o).logLines ++
        ["job already terminal - skipping"] := by
  have hterm := processJob_status_terminal s j pid o h
  obtain ⟨s1, hs1⟩ : ∃ s1, processJob s j pid o = s1 := ⟨_, rfl⟩
  rw [hs1] at hterm ⊢
  rw [processJob, hterm]
  simp

/-- Witness for C6: a queued job for person 1, processed successfully and
then re-delivered, keeps its single snippet and its event history. -/
theorem processJob_idempotent_witness :
    (processJob (processJob ⟨[(1, 7)], [(0, 1)], [(0, JobStatus.queued)], 1,
        [], [], []⟩ 0 1 none) 0 1 none).snippets =
      (processJob ⟨[(1, 7)], [(0, 1)], [(0, JobStatus.queued)], 1,
        [], [], []⟩ 0 1 none).snippets ∧
    (processJob (processJob ⟨[(1, 7)], [(0, 1)], [(0, JobStatus.queued)], 1,
        [], [], []⟩ 0 1 none) 0 1 none).events =
      (processJob ⟨[(1, 7)], [(0, 1)], [(0, JobStatus.queued)], 1,
        [], [], []⟩ 0 1 none).events := by
  have h := processJob_idempotent
    ⟨[(1, 7)], [(0, 1)], [(0, JobStatus.queued)], 1, [], [], []⟩ 0 1 none none
    (by decide)
  exact ⟨h.1, h.2.1⟩

/-! ## C7 — stage failure: job Failed, distinct failure terminal event,
nothing persisted -/

/-- C7: when pipeline stage `f` of a queued job fails, the job moves to
`Failed`, the broadcast history gains exactly that job's event sequence,
whose last element is the terminal failure event; the failure message is
distinct from the success message (and not recognized by the client's
terminal-success test); and the Snippet Store is left unchanged — the partial
results of stages before `f` are discarded. -/
theorem processJob_stage_failure (s : BackendState) (j pid cid f : Nat)
    (hq : jobStatus s.jobs j = some JobStatus.queued)
    (hp : lookupPerson s.people pid = some cid)
    (_hf : f < nStages) :
    jobStatus (processJob s j pid (some f)).jobs j = some JobStatus.failed ∧
    (processJob s j pid (some f)).snippets = s.snippets ∧
    (processJob s j pid (some f)).events =
      s.events ++ emittedEvents j (some cid) (some f) ∧
    (emittedEvents j (some cid) (some f)).getLast? =
      some ⟨j, some cid, stagePercent f, failureMsg⟩ ∧
    failureMsg ≠ successMsg ∧
    includesStr failureMsg "completed" = false := by
  have hns : statusTerminal (jobStatus s.jobs j) = false := by rw [hq]; rfl
  have hsome : (jobStatus s.jobs j).isSome := by rw [hq]; rfl
  rw [processJob, hns]
  simp only [Bool.false_eq_true, if_false, hp]
  refine ⟨jobStatus_setStatus s.jobs j _ hsome, trivial, trivial, ?_,
    by decide, by decide⟩
  rw [emittedEvents, List.getLast?_concat]

/-- Witness for C7: a queued job for person 1 failing at stage 2 ends Failed
with an unchanged (empty) snippet store. -/
theorem processJob_stage_failure_witness :
    jobStatus (processJob ⟨[(1, 7)], [(0, 1)], [(0, JobStatus.queued)], 1,
        [], [], []⟩ 0 1 (some 2)).jobs 0 = some JobStatus.failed ∧
    (processJob ⟨[(1, 7)], [(0, 1)], [(0, JobStatus.queued)], 1,
        [], [], []⟩ 0 1 (some 2)).snippets = [] := by
  have h := processJob_stage_failure
    ⟨[(1, 7)], [(0, 1)], [(0, JobStatus.queued)], 1, [], [], []⟩ 0 1 7 2
    (by decide) (by decide) (by decide)
  exact ⟨h.1, h.2.1⟩

end Spec2Proof
